import Mathlib

/-!
Verification of the packet-framing and handshake/authentication layer of
the go-mysql-pure client (package mysql: part_000 packet framer,
connection.go handshake decoder, credential encoder and session state
machine).  Byte strings are shallowly embedded as lists of naturals,
machine integers as naturals reduced modulo the word size where the
source truncates, fallible operations as Option or Except values, and
the buffered network reader as the list of byte chunks that successive
Read calls deliver.
-/

set_option maxHeartbeats 1000000

namespace Mysql

/-- Byte strings are lists of naturals; every entry denotes one byte. -/
abbrev Bytes := List Nat

/-- PacketHeader from part_000 lines 8-11: Len is the 3-byte
little-endian payload length, Seq the sequence byte. -/
structure PacketHeader where
  Len : Nat
  Seq : Nat
  deriving DecidableEq, Repr

/-- UnpackNumber from part_000 lines 48-56: little-endian accumulation
of the first n bytes, num |= byteArr[i] << (i*8) for i < n.
Out-of-range indexing is modelled by getD; the claims only apply it
with n bounded by the available length. -/
def UnpackNumber (byteArr : Bytes) (n : Nat) : Nat :=
  (List.range n).foldl (fun num i => num ||| (byteArr.getD i 0 <<< (i * 8))) 0

/-- One Read call of the buffered reader, modelled on a chunk stream:
Read returns at most space bytes from the front chunk; a leftover part
of a partially consumed chunk stays at the head for the next call. -/
def streamRead (chunks : List Bytes) (space : Nat) : Bytes × List Bytes :=
  match chunks with
  | [] => ([], [])
  | c :: rest =>
      if c.length ≤ space then (c, rest)
      else (c.take space, c.drop space :: rest)

/-- writeAt buf i data overwrites buf starting at index i with data;
the callers arrange that data fits inside buf. -/
def writeAt (buf : Bytes) (i : Nat) (data : Bytes) : Bytes :=
  buf.take i ++ data ++ buf.drop (i + data.length)

/-- The loop of ReadPacket, part_000 lines 33-43, translated faithfully
including the double increment of the index (the for-loop increment i++
on top of i += numOfBytes).  The fuel argument only bounds the number
of iterations; i grows by at least one per iteration, so a fuel of
buffer length + 1 always suffices and ReadPacket below calls it so. -/
def ReadPacketLoop : Nat → Bytes → List Bytes → Nat → Except Unit (Bytes × List Bytes)
  | 0, byteArr, chunks, _ => .ok (byteArr, chunks)
  | fuel + 1, byteArr, chunks, i =>
      if i < byteArr.length then
        match chunks with
        | [] => .error ()
        | c :: rest =>
            let rd := streamRead (c :: rest) (byteArr.length - i)
            ReadPacketLoop fuel (writeAt byteArr i rd.1) rd.2 (i + rd.1.length + 1)
      else .ok (byteArr, chunks)

/-- ReadPacket from part_000 lines 29-46: reads from the chunked reader
into byteArr; returns the final buffer and the remaining stream, or an
error when a Read call fails (stream exhausted). -/
def ReadPacket (chunks : List Bytes) (byteArr : Bytes) : Except Unit (Bytes × List Bytes) :=
  ReadPacketLoop (byteArr.length + 1) byteArr chunks 0

/-- ReadPacketHeader from part_000 lines 13-27: reads 4 bytes with
ReadPacket into a zeroed buffer, then Len = UnpackNumber(bytes, 3) and
Seq = bytes[3]. -/
def ReadPacketHeader (chunks : List Bytes) : Except Unit (PacketHeader × List Bytes) :=
  match ReadPacket chunks (List.replicate 4 0) with
  | .error e => .error e
  | .ok (byteArr, rest) => .ok (⟨UnpackNumber byteArr 3, byteArr.getD 3 0⟩, rest)

/-- Little-endian unsigned value of a byte string, first byte least
significant; the specification side of the UnpackNumber claim. -/
def leValue (bs : Bytes) : Nat :=
  bs.foldr (fun b acc => b + 256 * acc) 0

/-- Modelled from the spec: the packet-header serialization, 3-byte
little-endian length followed by the sequence byte.  A standalone
writePacket encoder is not under src; the same serialization appears
inline in sendAuth (connection.go lines 366-369). -/
def encodePacketHeader (len seq : Nat) : Bytes :=
  [len % 256, (len >>> 8) % 256, (len >>> 16) % 256, seq % 256]

theorem leValue_nil : leValue [] = 0 := rfl

theorem leValue_cons (x : Nat) (l : Bytes) : leValue (x :: l) = x + 256 * leValue l := rfl

theorem UnpackNumber_succ (bs : Bytes) (n : Nat) :
    UnpackNumber bs (n + 1) = UnpackNumber bs n ||| (bs.getD n 0 <<< (n * 8)) := by
  simp [UnpackNumber, List.range_succ]

theorem leValue_append_singleton (xs : Bytes) (b : Nat) :
    leValue (xs ++ [b]) = leValue xs + 256 ^ xs.length * b := by
  induction xs with
  | nil => simp [leValue]
  | cons x xs ih =>
      rw [List.cons_append, leValue_cons, ih, leValue_cons, List.length_cons]
      ring

theorem leValue_lt (bs : Bytes) (h : ∀ b ∈ bs, b < 256) :
    leValue bs < 256 ^ bs.length := by
  induction bs with
  | nil => simp [leValue]
  | cons x xs ih =>
      have hx : x < 256 := h x (by simp)
      have hxs := ih (fun b hb => h b (by simp [hb]))
      rw [leValue_cons, List.length_cons, pow_succ]
      nlinarith

theorem lor_shiftLeft_eq_add (a b k : Nat) (h : a < 2 ^ k) :
    a ||| (b <<< k) = a + b * 2 ^ k := by
  rw [Nat.shiftLeft_eq, Nat.lor_comm, Nat.mul_comm b (2 ^ k),
    ← Nat.mul_add_lt_is_or h b]
  omega

theorem UnpackNumber_eq_leValue (bs : Bytes) (n : Nat) (hn : n ≤ bs.length)
    (hb : ∀ b ∈ bs, b < 256) :
    UnpackNumber bs n = leValue (bs.take n) := by
  induction n with
  | zero => simp [UnpackNumber, leValue]
  | succ n ih =>
      have hlt : n < bs.length := Nat.lt_of_succ_le hn
      rw [UnpackNumber_succ, ih (Nat.le_of_lt hlt)]
      have htake : bs.take (n + 1) = bs.take n ++ [bs.getD n 0] := by
        rw [List.take_succ, List.getElem?_eq_getElem hlt]
        simp [List.getD, List.getElem?_eq_getElem hlt]
      rw [htake, leValue_append_singleton]
      have hlen : (bs.take n).length = n := List.length_take_of_le (Nat.le_of_lt hlt)
      have hbound : leValue (bs.take n) < 256 ^ n := by
        have := leValue_lt (bs.take n) (fun b hb2 => hb b (List.mem_of_mem_take hb2))
        rwa [hlen] at this
      have hpow : (256 : Nat) ^ n = 2 ^ (n * 8) := by
        rw [Nat.mul_comm n 8, Nat.pow_mul]
      rw [lor_shiftLeft_eq_add _ _ _ (by rwa [← hpow]), hlen, hpow]
      ring

/-- C1: ReadPacket does NOT fill the destination with the first n bytes
of the stream when reads arrive in small chunks: the loop index is
incremented both by the bytes read and by the for-loop step, so
destination positions are skipped.  With the four bytes delivered one
at a time the buffer ends up [1,0,2,0] (positions 1 and 3 never
written, stream bytes 3 and 4 never consumed) while an all-at-once
stream yields [1,2,3,4]; the two runs disagree, refuting the claimed
chunking independence. -/
theorem ReadPacket_chunked_corrupts :
    ReadPacket [[1], [2], [3], [4]] [0, 0, 0, 0] = .ok ([1, 0, 2, 0], [[3], [4]]) ∧
    ReadPacket [[1, 2, 3, 4]] [0, 0, 0, 0] = .ok ([1, 2, 3, 4], []) ∧
    ([1, 0, 2, 0] : Bytes) ≠ [1, 2, 3, 4] := by
  refine ⟨rfl, rfl, by decide⟩

/-- C8: header round-trip and UnpackNumber correctness.  Encoding a
header with length at most 0xFFFFFF and sequence at most 255 as the
3-byte little-endian length plus the sequence byte and decoding it with
ReadPacketHeader gives back the identical pair, and UnpackNumber(bs, n)
equals the little-endian unsigned value of the first n bytes for every
n in [1,8] (no sign extension: values are plain naturals). -/
theorem ReadPacketHeader_roundtrip :
    (∀ len seq rest, len ≤ 0xFFFFFF → seq ≤ 255 →
       ReadPacketHeader (encodePacketHeader len seq :: rest) = .ok (⟨len, seq⟩, rest)) ∧
    (∀ (bs : Bytes) (n : Nat), 1 ≤ n → n ≤ 8 → n ≤ bs.length →
       (∀ b ∈ bs, b < 256) → UnpackNumber bs n = leValue (bs.take n)) := by
  constructor
  · intro len seq rest hlen hseq
    have hstep : ReadPacketHeader (encodePacketHeader len seq :: rest) =
        .ok (⟨UnpackNumber [len % 256, (len >>> 8) % 256, (len >>> 16) % 256, seq % 256] 3,
              seq % 256⟩, rest) := rfl
    rw [hstep]
    have hb : ∀ b ∈ [len % 256, (len >>> 8) % 256, (len >>> 16) % 256, seq % 256],
        b < 256 := by
      intro b hbm
      simp only [List.mem_cons, List.not_mem_nil, or_false] at hbm
      rcases hbm with h | h | h | h <;> subst h <;> exact Nat.mod_lt _ (by omega)
    have h1 : UnpackNumber [len % 256, (len >>> 8) % 256, (len >>> 16) % 256, seq % 256] 3 =
        len := by
      rw [UnpackNumber_eq_leValue _ 3 (by simp) hb]
      simp only [List.take_succ_cons, List.take_zero]
      rw [leValue_cons, leValue_cons, leValue_cons, leValue_nil]
      have e8 : len >>> 8 = len / 256 := by
        rw [Nat.shiftRight_eq_div_pow]
      have e16 : len >>> 16 = len / 65536 := by
        rw [Nat.shiftRight_eq_div_pow]
      rw [e8, e16]
      omega
    rw [h1, Nat.mod_eq_of_lt (by omega : seq < 256)]
  · intro bs n _ _ hn hb
    exact UnpackNumber_eq_leValue bs n hn hb

/-- Closed witness for the header round-trip at length 0xABCDEF and
sequence 7 with an empty remaining stream, and for UnpackNumber on a
two-byte string. -/
theorem ReadPacketHeader_roundtrip_witness :
    ReadPacketHeader (encodePacketHeader 0xABCDEF 7 :: []) = .ok (⟨0xABCDEF, 7⟩, []) ∧
    UnpackNumber [0x34, 0x12] 2 = leValue [0x34, 0x12] := by
  refine ⟨ReadPacketHeader_roundtrip.1 0xABCDEF 7 [] (by decide) (by decide), ?_⟩
  have := ReadPacketHeader_roundtrip.2 [0x34, 0x12] 2 (by decide) (by decide) (by decide)
    (by decide)
  simpa using this

/-! ### SHA-1 and the credential scramble -/

/-- Reduction to a 32-bit word. -/
def w32 (x : Nat) : Nat := x % 4294967296

/-- Rotate a 32-bit word left by n bits. -/
def rotl (n x : Nat) : Nat := w32 ((x <<< n) ||| (x >>> (32 - n)))

/-- SHA-1 message padding: one 0x80 byte, zeros to 56 mod 64, then the
64-bit big-endian bit length. -/
def sha1pad (msg : Bytes) : Bytes :=
  let len := msg.length
  let k := (119 - len % 64) % 64
  let bitLen := len * 8
  msg ++ [0x80] ++ List.replicate k 0 ++
    [(bitLen >>> 56) % 256, (bitLen >>> 48) % 256, (bitLen >>> 40) % 256,
     (bitLen >>> 32) % 256, (bitLen >>> 24) % 256, (bitLen >>> 16) % 256,
     (bitLen >>> 8) % 256, bitLen % 256]

/-- Big-endian 32-bit words from bytes, four bytes per word. -/
def wordsBE : Bytes → List Nat
  | b0 :: b1 :: b2 :: b3 :: rest =>
      ((b0 <<< 24) ||| (b1 <<< 16) ||| (b2 <<< 8) ||| b3) :: wordsBE rest
  | _ => []

/-- SHA-1 message-schedule extension from 16 to 80 words; the word list
is kept reversed while extending. -/
def sha1extend (w16 : List Nat) : List Nat :=
  ((List.range 64).foldl
    (fun ws _ =>
      rotl 1 (ws.getD 2 0 ^^^ ws.getD 7 0 ^^^ ws.getD 13 0 ^^^ ws.getD 15 0) :: ws)
    w16.reverse).reverse

/-- One SHA-1 round: state (a,b,c,d,e) updated with round index i and
schedule word w. -/
def sha1round (st : Nat × Nat × Nat × Nat × Nat) (iw : Nat × Nat) :
    Nat × Nat × Nat × Nat × Nat :=
  let (a, b, c, d, e) := st
  let (i, w) := iw
  let f :=
    if i < 20 then (b &&& c) ||| ((b ^^^ 0xFFFFFFFF) &&& d)
    else if i < 40 then b ^^^ c ^^^ d
    else if i < 60 then (b &&& c) ||| (b &&& d) ||| (c &&& d)
    else b ^^^ c ^^^ d
  let k :=
    if i < 20 then 0x5A827999
    else if i < 40 then 0x6ED9EBA1
    else if i < 60 then 0x8F1BBCDC
    else 0xCA62C1D6
  (w32 (rotl 5 a + f + e + k + w), a, rotl 30 b, c, d)

/-- One 64-byte SHA-1 block applied to the running hash state. -/
def sha1block (h : Nat × Nat × Nat × Nat × Nat) (block : Bytes) :
    Nat × Nat × Nat × Nat × Nat :=
  let (h0, h1, h2, h3, h4) := h
  let ws := sha1extend (wordsBE block)
  let (a, b, c, d, e) := ws.enum.foldl sha1round (h0, h1, h2, h3, h4)
  (w32 (h0 + a), w32 (h1 + b), w32 (h2 + c), w32 (h3 + d), w32 (h4 + e))

/-- Split into 64-byte blocks; the fuel argument only bounds recursion
depth and the caller passes the full length, which always suffices. -/
def chunks64 : Nat → Bytes → List Bytes
  | _, [] => []
  | 0, l => [l]
  | fuel + 1, l => l.take 64 :: chunks64 fuel (l.drop 64)

/-- Big-endian bytes of a 32-bit word. -/
def wordBytesBE (x : Nat) : Bytes :=
  [(x >>> 24) % 256, (x >>> 16) % 256, (x >>> 8) % 256, x % 256]

/-- Modelled from the spec: the standard SHA1 function named by the
scramble algorithm (the hashing routine is an external library for the
source).  Checked against the published digests of "abc" and of the
empty string.  Returns the 20-byte digest. -/
def sha1 (msg : Bytes) : Bytes :=
  let padded := sha1pad msg
  let hs := (chunks64 padded.length padded).foldl sha1block
    (0x67452301, 0xEFCDAB89, 0x98BADCFE, 0x10325476, 0xC3D2E1F0)
  wordBytesBE hs.1 ++ wordBytesBE hs.2.1 ++ wordBytesBE hs.2.2.1 ++
    wordBytesBE hs.2.2.2.1 ++ wordBytesBE hs.2.2.2.2

/-- Bytewise xor of two byte strings. -/
def bytesXor (xs ys : Bytes) : Bytes := List.zipWith (fun a b => a ^^^ b) xs ys

/-- Modelled from the spec: scramblePassword, called from connection.go
line 348 but itself not under src.  stage1 = SHA1(password), stage2 =
SHA1(stage1), result = SHA1(challenge ++ stage2) XOR stage1; an empty
password yields the empty credential, not a zero block. -/
def scramblePassword (scramble password : Bytes) : Bytes :=
  if password = [] then []
  else bytesXor (sha1 (scramble ++ sha1 (sha1 password))) (sha1 password)

theorem sha1_length (msg : Bytes) : (sha1 msg).length = 20 := by
  simp [sha1, wordBytesBE]

set_option maxRecDepth 40000 in
theorem sha1_abc :
    sha1 [97, 98, 99] =
      [0xa9, 0x99, 0x3e, 0x36, 0x47, 0x06, 0x81, 0x6a, 0xba, 0x3e, 0x25, 0x71,
       0x78, 0x50, 0xc2, 0x6c, 0x9c, 0xd0, 0xd8, 0x9d] := by
  decide

theorem scramblePassword_length (ch pw : Bytes) (hpw : pw ≠ []) :
    (scramblePassword ch pw).length = 20 := by
  simp [scramblePassword, hpw, bytesXor, sha1_length]

/-! ### Connection state and the handshake decoder -/

/-- ConnectionParameter, connection.go lines 101-110: the byte-level
fields the handshake uses.  Network, Host and Port only address the
external transport and IsDebugPacket only toggles a debug tee, so they
carry no protocol content. -/
structure ConnectionParameter where
  DBName : Bytes
  Username : Bytes
  Password : Bytes
  deriving DecidableEq, Repr

/-- Connection, connection.go lines 77-99: the greeting-derived fields
plus the transport handle; conn is none until a dial succeeds (a nil Go
interface).  Reader, writer, mutex and debug buffer are runtime
plumbing without protocol content. -/
structure Connection where
  param : ConnectionParameter
  conn : Option Unit
  ProtocolVersion : Nat
  ServerVersion : Bytes
  ConnectionID : Nat
  ScramblePart1 : Bytes
  ServerCapabilitiesPart1 : Nat
  ServerDefaultCollation : Nat
  StatusFlags : Nat
  ServerCapabilitiesPart2 : Nat
  LenOfScramblePart2 : Nat
  ScramblePart2 : Bytes
  AuthenticationPluginName : Bytes
  deriving DecidableEq, Repr

/-- NewConnection, connection.go lines 112-118: stores the parameters;
every other field keeps the Go zero value and no transport exists. -/
def NewConnection (param : ConnectionParameter) : Connection :=
  { param := param, conn := none, ProtocolVersion := 0, ServerVersion := [],
    ConnectionID := 0, ScramblePart1 := [], ServerCapabilitiesPart1 := 0,
    ServerDefaultCollation := 0, StatusFlags := 0, ServerCapabilitiesPart2 := 0,
    LenOfScramblePart2 := 0, ScramblePart2 := [], AuthenticationPluginName := [] }

/-- Exact read of w bytes from the flat reader followed by little-endian
decoding, the behaviour of binary.Read with an unsigned integer target
(io.ReadFull semantics: fails when fewer than w bytes remain). -/
def binaryReadLE (r : Bytes) (w : Nat) : Option (Nat × Bytes) :=
  if w ≤ r.length then some (leValue (r.take w), r.drop w) else none

/-- bufio ReadString up to and including the delimiter 0, as used at
connection.go lines 207 and 310: the returned string CONTAINS the
terminator; fails when the stream ends before a terminator appears. -/
def readString0 : Bytes → Option (Bytes × Bytes)
  | [] => none
  | b :: rest =>
      if b = 0 then some ([0], rest)
      else
        match readString0 rest with
        | none => none
        | some (s, r) => some (b :: s, r)

/-- Modelled from the spec: IgnoreBytes discards a fixed filler count
(the function is absent from src; the callers at connection.go lines
239, 285 and 307 also discard its error). -/
def IgnoreBytes (r : Bytes) (n : Nat) : Bytes := r.drop n

/-- ReadPacket as used on the flat reader of readInitPacket: the bufio
buffer already holds the packet bytes, so the chunk stream is the
single remaining chunk.  Defined through the real ReadPacket loop. -/
def readFull (r : Bytes) (n : Nat) : Option (Bytes × Bytes) :=
  match ReadPacket [r] (List.replicate n 0) with
  | .error _ => none
  | .ok (buf, rest) => some (buf, rest.flatten)

/-- Errors surfaced by readInitPacket: transport failures and the
explicit sequence-number protocol error of connection.go line 190. -/
inductive ReadErr
  | ioErr
  | unexpectedSeq
  deriving DecidableEq, Repr

/-- readInitPacket, connection.go lines 178-322, over a flat reader:
header via ReadPacketHeader, the sequence-zero check, then the greeting
fields in source order.  Null-terminated strings keep their terminator
exactly as bufio ReadString returns them; filler bytes are discarded
with IgnoreBytes, whose error the source ignores.  On failure the
fields updated so far are kept, mirroring the in-place mutation. -/
def readInitPacket (c : Connection) (r : Bytes) : Option ReadErr × Connection × Bytes :=
  match ReadPacketHeader [r] with
  | .error _ => (some .ioErr, c, r)
  | .ok (packetHeader, rest0) =>
    let r0 := rest0.flatten
    if packetHeader.Seq ≠ 0 then (some .unexpectedSeq, c, r0)
    else
      match binaryReadLE r0 1 with
      | none => (some .ioErr, c, r0)
      | some (pv, r1) =>
        let c := { c with ProtocolVersion := pv }
        match readString0 r1 with
        | none => (some .ioErr, c, r1)
        | some (sv, r2) =>
          let c := { c with ServerVersion := sv }
          match binaryReadLE r2 4 with
          | none => (some .ioErr, c, r2)
          | some (cid, r3) =>
            let c := { c with ConnectionID := cid }
            match readFull r3 8 with
            | none => (some .ioErr, c, r3)
            | some (sp1, r4) =>
              let c := { c with ScramblePart1 := sp1 }
              let r5 := IgnoreBytes r4 1
              match binaryReadLE r5 2 with
              | none => (some .ioErr, c, r5)
              | some (cap1, r6) =>
                let c := { c with ServerCapabilitiesPart1 := cap1 }
                match binaryReadLE r6 1 with
                | none => (some .ioErr, c, r6)
                | some (coll, r7) =>
                  let c := { c with ServerDefaultCollation := coll }
                  match binaryReadLE r7 2 with
                  | none => (some .ioErr, c, r7)
                  | some (st, r8) =>
                    let c := { c with StatusFlags := st }
                    match binaryReadLE r8 2 with
                    | none => (some .ioErr, c, r8)
                    | some (cap2, r9) =>
                      let c := { c with ServerCapabilitiesPart2 := cap2 }
                      let r10 := IgnoreBytes r9 (1 + 6 + 4)
                      match readFull r10 12 with
                      | none => (some .ioErr, c, r10)
                      | some (sp2, r11) =>
                        let c := { c with ScramblePart2 := sp2 }
                        let r12 := IgnoreBytes r11 1
                        match readString0 r12 with
                        | none => (some .ioErr, c, r12)
                        | some (apn, r13) =>
                          ((none : Option ReadErr),
                            { c with AuthenticationPluginName := apn }, r13)

/-- ReadPacketHeader on a single-chunk stream holding at least the four
header bytes: the loop reads all four in one iteration and leaves the
remaining bytes as the stream. -/
theorem ReadPacketHeader_flat (b0 b1 b2 b3 : Nat) (rest : Bytes) :
    ∃ rs : List Bytes,
      ReadPacketHeader [b0 :: b1 :: b2 :: b3 :: rest] =
        .ok (⟨UnpackNumber [b0, b1, b2, b3] 3, b3⟩, rs) ∧ rs.flatten = rest := by
  cases rest with
  | nil => exact ⟨[], rfl, rfl⟩
  | cons x xs => exact ⟨[x :: xs], rfl, by simp⟩

/-- C4: a first packet whose header carries a nonzero sequence number
makes readInitPacket fail with the protocol error before any greeting
field is read: the connection record is returned unchanged and only the
four header bytes have been consumed. -/
theorem readInitPacket_unexpected_seq (c : Connection) (b0 b1 b2 b3 : Nat)
    (rest : Bytes) (h : b3 ≠ 0) :
    readInitPacket c (b0 :: b1 :: b2 :: b3 :: rest) =
      (some .unexpectedSeq, c, rest) := by
  obtain ⟨rs, heq, hfl⟩ := ReadPacketHeader_flat b0 b1 b2 b3 rest
  simp only [readInitPacket, heq, hfl, h, if_pos, ne_eq, not_false_eq_true, if_true]

/-- Closed witness: a header with sequence number 1 aborts the decode
with the sequence error and leaves the fresh connection unchanged. -/
theorem readInitPacket_unexpected_seq_witness :
    readInitPacket (NewConnection ⟨[], [], []⟩) (10 :: 0 :: 0 :: 1 :: [9, 9, 9]) =
      (some .unexpectedSeq, NewConnection ⟨[], [], []⟩, [9, 9, 9]) :=
  readInitPacket_unexpected_seq (NewConnection ⟨[], [], []⟩) 10 0 0 1 [9, 9, 9]
    (by decide)

/-- The literal minimal handshake of the greeting-decode property:
header (payload length 73, sequence 0), protocol version 10, version
string "5.7.0", connection id 7, challenge part 1 = bytes 1..8, the
documented reserved and filler bytes, capability halves 0xFFF7 and
0x81FF, collation 8, status flags 2, challenge part 2 = bytes 9..20,
plugin name "mysql_native_password". -/
def greeting0 : Bytes :=
  [73, 0, 0, 0, 10] ++
  [53, 46, 55, 46, 48, 0] ++
  [7, 0, 0, 0] ++
  [1, 2, 3, 4, 5, 6, 7, 8] ++
  [0] ++
  [247, 255] ++
  [8] ++
  [2, 0] ++
  [255, 129] ++
  [21, 0, 0, 0, 0, 0, 0, 0, 0, 0, 0] ++
  [9, 10, 11, 12, 13, 14, 15, 16, 17, 18, 19, 20] ++
  [0] ++
  [109, 121, 115, 113, 108, 95, 110, 97, 116, 105, 118, 101, 95, 112,
   97, 115, 115, 119, 111, 114, 100, 0]

/-- C5 counterexample: decoding the literal minimal handshake succeeds,
but ServerVersion is NOT the plain text "5.7.0": bufio ReadString
returns the delimiter too, so the stored field is "5.7.0\x00" with the
terminator byte included, contradicting the claim that fields carry the
encoded value without any terminator. -/
theorem readInitPacket_keeps_terminator :
    (readInitPacket (NewConnection ⟨[], [], []⟩) greeting0).1 = none ∧
    (readInitPacket (NewConnection ⟨[], [], []⟩) greeting0).2.1.ServerVersion =
      [53, 46, 55, 46, 48, 0] ∧
    ([53, 46, 55, 46, 48, 0] : Bytes) ≠ [53, 46, 55, 46, 48] := by
  refine ⟨rfl, rfl, by decide⟩

/-- C5 amended: decoding the literal minimal handshake reproduces every
decoded field exactly, with the two null-terminated text fields stored
together with their terminator byte (and LenOfScramblePart2 left at its
zero value, since the source skips that byte); the concatenation of the
two challenge parts is the original 20-byte challenge. -/
theorem readInitPacket_greeting0 :
    readInitPacket (NewConnection ⟨[], [], []⟩) greeting0 =
      (none,
        { param := ⟨[], [], []⟩, conn := none, ProtocolVersion := 10,
          ServerVersion := [53, 46, 55, 46, 48, 0], ConnectionID := 7,
          ScramblePart1 := [1, 2, 3, 4, 5, 6, 7, 8],
          ServerCapabilitiesPart1 := 65527, ServerDefaultCollation := 8,
          StatusFlags := 2, ServerCapabilitiesPart2 := 33279,
          LenOfScramblePart2 := 0,
          ScramblePart2 := [9, 10, 11, 12, 13, 14, 15, 16, 17, 18, 19, 20],
          AuthenticationPluginName :=
            [109, 121, 115, 113, 108, 95, 110, 97, 116, 105, 118, 101, 95, 112,
             97, 115, 115, 119, 111, 114, 100, 0] }, []) ∧
    (readInitPacket (NewConnection ⟨[], [], []⟩) greeting0).2.1.ScramblePart1 ++
        (readInitPacket (NewConnection ⟨[], [], []⟩) greeting0).2.1.ScramblePart2 =
      [1, 2, 3, 4, 5, 6, 7, 8, 9, 10, 11, 12, 13, 14, 15, 16, 17, 18, 19, 20] := by
  refine ⟨by decide, rfl⟩

/-! ### The credential encoder sendAuth -/

/-- Client capability flags, connection.go lines 24-45 (the subset the
encoder uses plus the database-coupling bit). -/
def CLIENT_LONG_PASSWORD : Nat := 1

/-- One can specify db on connect, connection.go line 28. -/
def CLIENT_CONNECT_WITH_DB : Nat := 8

/-- New 4.1 protocol, connection.go line 34. -/
def CLIENT_PROTOCOL_41 : Nat := 512

/-- New 4.1 authentication, connection.go line 40. -/
def CLIENT_SECURE_CONNECTION : Nat := 32768

/-- Multi-statement support, connection.go line 41. -/
def CLIENT_MULTI_STATEMENTS : Nat := 65536

/-- Multi-result support, connection.go line 42. -/
def CLIENT_MULTI_RESULTS : Nat := 131072

/-- MAX_PACKET_SIZE, connection.go line 16: one shifted left by 24. -/
def MAX_PACKET_SIZE : Nat := 1 <<< 24

/-- A single Go slice store byteArr[i] = v; indexing outside the slice
is a runtime panic, modelled as none. -/
def setAt (buf : Bytes) (i v : Nat) : Option Bytes :=
  if i < buf.length then some (buf.set i v) else none

/-- Go copy(byteArr[pos:], src): copies min(len(src), len(byteArr)-pos)
bytes and returns the new buffer with the count; copy never panics. -/
def copyInto (buf : Bytes) (pos : Nat) (src : Bytes) : Bytes × Nat :=
  let m := min src.length (buf.length - pos)
  (buf.take pos ++ src.take m ++ buf.drop (pos + m), m)

/-- binary.LittleEndian.PutUint32(byteArr[pos:pos+4], v): taking the
4-wide subslice panics unless pos+4 fits, then the four little-endian
bytes are stored. -/
def putUint32LE (buf : Bytes) (pos v : Nat) : Option Bytes :=
  if pos + 4 ≤ buf.length then
    some ((((buf.set pos (v % 256)).set (pos + 1) ((v >>> 8) % 256)).set
      (pos + 2) ((v >>> 16) % 256)).set (pos + 3) ((v >>> 24) % 256))
  else none

/-- The client plugin name literal of connection.go lines 359 and 412. -/
def mysqlNativePassword : Bytes :=
  [109, 121, 115, 113, 108, 95, 110, 97, 116, 105, 118, 101, 95, 112,
   97, 115, 115, 119, 111, 114, 100]

/-- sendAuth, connection.go lines 325-431: builds the handshake
response into a buffer of byteLen+4 bytes and returns the bytes handed
to the writer (byteArr[0:pos]); none models the runtime panic of an
out-of-range store.  Positions follow the source: 4-byte header, then
pos advances 4 (capabilities), 4 (max packet size), 1 (collation),
19+4 (reserved), the username with terminator, the credential length
byte and credential, the database name with terminator (stored
unconditionally although byteLen counts it only for a non-empty name),
and the plugin name with terminator. -/
def sendAuth (c : Connection) : Option Bytes :=
  let clientFlags :=
    CLIENT_LONG_PASSWORD + CLIENT_PROTOCOL_41 + CLIENT_SECURE_CONNECTION +
      CLIENT_MULTI_STATEMENTS + CLIENT_MULTI_RESULTS
  let cipher := c.ScramblePart1 ++ c.ScramblePart2
  let password := scramblePassword cipher c.param.Password
  let byteLen0 :=
    4 + 4 + 1 + 19 + 4 + (c.param.Username.length + 1) + (1 + password.length)
  let clientFlags2 :=
    if 0 < c.param.DBName.length then clientFlags + CLIENT_CONNECT_WITH_DB
    else clientFlags
  let byteLen1 :=
    if 0 < c.param.DBName.length then byteLen0 + (c.param.DBName.length + 1)
    else byteLen0
  let byteLen := byteLen1 + (mysqlNativePassword.length + 1)
  let byteArr := List.replicate (byteLen + 4) 0
  do
    let b0 ← setAt byteArr 0 (byteLen % 256)
    let b1 ← setAt b0 1 ((byteLen >>> 8) % 256)
    let b2 ← setAt b1 2 ((byteLen >>> 16) % 256)
    let b3 ← setAt b2 3 1
    let b4 ← putUint32LE b3 4 (clientFlags2 % 4294967296)
    let b5 ← putUint32LE b4 8 (MAX_PACKET_SIZE % 4294967296)
    let b6 ← setAt b5 12 c.ServerDefaultCollation
    let (b7, n1) := copyInto b6 36 c.param.Username
    let b8 ← setAt b7 (36 + n1) 0
    let b9 ← setAt b8 (36 + n1 + 1) (password.length % 256)
    let (b10, n2) := copyInto b9 (36 + n1 + 2) password
    let (b11, n3) := copyInto b10 (36 + n1 + 2 + n2) c.param.DBName
    let b12 ← setAt b11 (36 + n1 + 2 + n2 + n3) 0
    let (b13, n4) := copyInto b12 (36 + n1 + 2 + n2 + n3 + 1) mysqlNativePassword
    let b14 ← setAt b13 (36 + n1 + 2 + n2 + n3 + 1 + n4) 0
    some (b14.take (36 + n1 + 2 + n2 + n3 + 1 + n4 + 1))

/-- Setting an element past an append prefix. -/
theorem set_append_add (W T : Bytes) (j v : Nat) :
    (W ++ T).set (W.length + j) v = W ++ T.set j v := by
  induction W with
  | nil => simp
  | cons a W ih => simp [List.set, Nat.succ_add, ih]

/-- A store at the frontier of the written prefix lands in the zero tail. -/
theorem setAt_frontier (W : Bytes) (k v i : Nat) (hi : i = W.length) (hk : 0 < k) :
    setAt (W ++ List.replicate k 0) i v =
      some ((W ++ [v]) ++ List.replicate (k - 1) 0) := by
  subst hi
  obtain ⟨m, rfl⟩ : ∃ m, k = m + 1 := ⟨k - 1, by omega⟩
  rw [setAt, if_pos (by simp)]
  rw [List.replicate_succ]
  have h := set_append_add W (0 :: List.replicate m 0) 0 v
  simp only [Nat.add_zero, List.set] at h
  rw [h]
  simp [List.append_assoc]

/-- Splitting the zero tail to skip reserved bytes. -/
theorem replicate_split (W : Bytes) (k j : Nat) (h : j ≤ k) :
    W ++ List.replicate k (0:Nat) = (W ++ List.replicate j 0) ++ List.replicate (k - j) 0 := by
  obtain ⟨m, rfl⟩ : ∃ m, k = j + m := ⟨k - j, by omega⟩
  rw [List.replicate_add, ← List.append_assoc]
  congr 2
  omega

/-- A copy at the frontier appends the source to the written prefix. -/
theorem copyInto_frontier (W : Bytes) (k : Nat) (src : Bytes) (i : Nat)
    (hi : i = W.length) (h : src.length ≤ k) :
    copyInto (W ++ List.replicate k 0) i src =
      ((W ++ src) ++ List.replicate (k - src.length) 0, src.length) := by
  subst hi
  have hm : min src.length ((W ++ List.replicate k (0:Nat)).length - W.length)
      = src.length := by simp; omega
  simp only [copyInto, hm]
  rw [List.take_left, List.take_length, List.drop_append]
  simp [List.append_assoc, List.drop_replicate]

/-- A 32-bit little-endian store at the frontier. -/
theorem putUint32LE_frontier (W : Bytes) (k v i : Nat) (hi : i = W.length) (hk : 4 ≤ k) :
    putUint32LE (W ++ List.replicate k 0) i v =
      some ((W ++ [v % 256, (v >>> 8) % 256, (v >>> 16) % 256, (v >>> 24) % 256]) ++
        List.replicate (k - 4) 0) := by
  subst hi
  obtain ⟨m, rfl⟩ : ∃ m, k = m + 4 := ⟨k - 4, by omega⟩
  rw [putUint32LE, if_pos (by simp)]
  have h4 : List.replicate (m + 4) (0:Nat) = 0 :: 0 :: 0 :: 0 :: List.replicate m 0 := by
    simp [List.replicate_succ]
  rw [h4]
  have s0 := set_append_add W (0 :: 0 :: 0 :: 0 :: List.replicate m 0) 0 (v % 256)
  simp only [Nat.add_zero, List.set] at s0
  have s1 := set_append_add W ((v % 256) :: 0 :: 0 :: 0 :: List.replicate m 0) 1
    ((v >>> 8) % 256)
  have s2 := set_append_add W ((v % 256) :: (v >>> 8) % 256 :: 0 :: 0 :: List.replicate m 0) 2
    ((v >>> 16) % 256)
  have s3 := set_append_add W
    ((v % 256) :: (v >>> 8) % 256 :: (v >>> 16) % 256 :: 0 :: List.replicate m 0) 3
    ((v >>> 24) % 256)
  simp only [List.set] at s1 s2 s3
  rw [s0, s1, s2, s3]
  simp [List.append_assoc]

/-- Master shape lemma: with a non-empty database name sendAuth builds
the complete response: 3-byte little-endian length 57+u+p+d and
sequence byte 1, capability bytes [9,130,3,0] (the base flags plus
CONNECT_WITH_DB), max packet size bytes [0,0,0,1], the collation, 23
reserved zeros, the username with terminator, the credential length
byte and credential, the database name with terminator, and the plugin
name with terminator. -/
theorem sendAuth_shape (c : Connection) (hd : c.param.DBName ≠ []) :
    sendAuth c =
      some (
        ((57 + c.param.Username.length +
            (scramblePassword (c.ScramblePart1 ++ c.ScramblePart2)
              c.param.Password).length + c.param.DBName.length) % 256) ::
        (((57 + c.param.Username.length +
            (scramblePassword (c.ScramblePart1 ++ c.ScramblePart2)
              c.param.Password).length + c.param.DBName.length) >>> 8) % 256) ::
        (((57 + c.param.Username.length +
            (scramblePassword (c.ScramblePart1 ++ c.ScramblePart2)
              c.param.Password).length + c.param.DBName.length) >>> 16) % 256) ::
        1 :: 9 :: 130 :: 3 :: 0 :: 0 :: 0 :: 0 :: 1 ::
        c.ServerDefaultCollation ::
        (List.replicate 23 0 ++
          c.param.Username ++
          [0, (scramblePassword (c.ScramblePart1 ++ c.ScramblePart2)
              c.param.Password).length % 256] ++
          scramblePassword (c.ScramblePart1 ++ c.ScramblePart2) c.param.Password ++
          c.param.DBName ++ [0] ++ mysqlNativePassword ++ [0])) := by
  have hdpos : 0 < c.param.DBName.length := List.length_pos.mpr hd
  simp only [sendAuth, if_pos hdpos, CLIENT_LONG_PASSWORD, CLIENT_PROTOCOL_41,
    CLIENT_SECURE_CONNECTION, CLIENT_MULTI_STATEMENTS, CLIENT_MULTI_RESULTS,
    CLIENT_CONNECT_WITH_DB, MAX_PACKET_SIZE]
  set U := c.param.Username with hU
  set D := c.param.DBName with hD
  set P := scramblePassword (c.ScramblePart1 ++ c.ScramblePart2) c.param.Password with hP
  rw [show mysqlNativePassword.length = 21 from rfl]
  rw [show 32 + (U.length + 1) + (1 + P.length) + (D.length + 1) + (21 + 1)
      = 57 + U.length + P.length + D.length from by omega]
  rw [show (List.replicate (57 + U.length + P.length + D.length + 4) (0:Nat))
      = [] ++ List.replicate (57 + U.length + P.length + D.length + 4) 0 from rfl]
  rw [setAt_frontier _ _ _ _ (by simp) (by omega)]
  simp only [Option.bind_eq_bind, Option.some_bind]
  rw [setAt_frontier _ _ _ _ (by simp <;> omega) (by omega)]
  simp only [Option.bind_eq_bind, Option.some_bind]
  rw [setAt_frontier _ _ _ _ (by simp <;> omega) (by omega)]
  simp only [Option.bind_eq_bind, Option.some_bind]
  rw [setAt_frontier _ _ _ _ (by simp <;> omega) (by omega)]
  simp only [Option.bind_eq_bind, Option.some_bind]
  rw [putUint32LE_frontier _ _ _ _ (by simp <;> omega) (by omega)]
  simp only [Option.bind_eq_bind, Option.some_bind]
  rw [putUint32LE_frontier _ _ _ _ (by simp <;> omega) (by omega)]
  simp only [Option.bind_eq_bind, Option.some_bind]
  rw [setAt_frontier _ _ _ _ (by simp <;> omega) (by omega)]
  simp only [Option.bind_eq_bind, Option.some_bind]
  rw [replicate_split _ _ 23 (by omega)]
  rw [copyInto_frontier _ _ _ _ (by simp <;> omega) (by omega)]
  simp only []
  rw [setAt_frontier _ _ _ _ (by simp <;> omega) (by omega)]
  simp only [Option.bind_eq_bind, Option.some_bind]
  rw [setAt_frontier _ _ _ _ (by simp <;> omega) (by omega)]
  simp only [Option.bind_eq_bind, Option.some_bind]
  rw [copyInto_frontier _ _ _ _ (by simp <;> omega) (by omega)]
  simp only []
  rw [copyInto_frontier _ _ _ _ (by simp <;> omega) (by omega)]
  simp only []
  rw [setAt_frontier _ _ _ _ (by simp <;> omega) (by omega)]
  simp only [Option.bind_eq_bind, Option.some_bind]
  rw [copyInto_frontier _ _ _ _ (by simp <;> omega)
    (by rw [show mysqlNativePassword.length = 21 from rfl]; omega)]
  simp only []
  rw [show mysqlNativePassword.length = 21 from rfl]
  rw [setAt_frontier _ _ _ _
    (by simp [show mysqlNativePassword.length = 21 from rfl] <;> omega) (by omega)]
  simp only [Option.bind_eq_bind, Option.some_bind]
  rw [show (57 + List.length U + List.length P + List.length D + 4 - 1 - 1 - 1 - 1 - 4 - 4 - 1 - 23 -
      List.length U - 1 - 1 - List.length P - List.length D - 1 - 21 - 1) = 0 from by omega]
  simp only [List.replicate_zero, List.append_nil]
  rw [List.take_of_length_le
    (by simp [show mysqlNativePassword.length = 21 from rfl] <;> omega)]
  simp [List.append_assoc]

/-- A store at or past the end of the buffer is the out-of-range panic. -/
theorem setAt_out (W : Bytes) (i v : Nat) (h : W.length ≤ i) : setAt W i v = none := by
  rw [setAt, if_neg (by omega)]

/-- With an empty database name the serialization runs off the end of
the buffer: byteLen omits the database terminator that the code stores
unconditionally, so the final plugin-name terminator store indexes one
past the buffer and the build faults. -/
theorem sendAuth_empty_db (c : Connection) (hd : c.param.DBName = []) :
    sendAuth c = none := by
  simp only [sendAuth, hd, CLIENT_LONG_PASSWORD, CLIENT_PROTOCOL_41,
    CLIENT_SECURE_CONNECTION, CLIENT_MULTI_STATEMENTS, CLIENT_MULTI_RESULTS,
    CLIENT_CONNECT_WITH_DB, MAX_PACKET_SIZE, List.length_nil, Nat.lt_irrefl, if_false]
  set U := c.param.Username with hU
  set P := scramblePassword (c.ScramblePart1 ++ c.ScramblePart2) c.param.Password with hP
  rw [show mysqlNativePassword.length = 21 from rfl]
  rw [show 32 + (U.length + 1) + (1 + P.length) + (21 + 1)
      = 56 + U.length + P.length from by omega]
  rw [show (List.replicate (56 + U.length + P.length + 4) (0:Nat))
      = [] ++ List.replicate (56 + U.length + P.length + 4) 0 from rfl]
  rw [setAt_frontier _ _ _ _ (by simp) (by omega)]
  simp only [Option.bind_eq_bind, Option.some_bind]
  rw [setAt_frontier _ _ _ _ (by simp <;> omega) (by omega)]
  simp only [Option.bind_eq_bind, Option.some_bind]
  rw [setAt_frontier _ _ _ _ (by simp <;> omega) (by omega)]
  simp only [Option.bind_eq_bind, Option.some_bind]
  rw [setAt_frontier _ _ _ _ (by simp <;> omega) (by omega)]
  simp only [Option.bind_eq_bind, Option.some_bind]
  rw [putUint32LE_frontier _ _ _ _ (by simp <;> omega) (by omega)]
  simp only [Option.bind_eq_bind, Option.some_bind]
  rw [putUint32LE_frontier _ _ _ _ (by simp <;> omega) (by omega)]
  simp only [Option.bind_eq_bind, Option.some_bind]
  rw [setAt_frontier _ _ _ _ (by simp <;> omega) (by omega)]
  simp only [Option.bind_eq_bind, Option.some_bind]
  rw [replicate_split _ _ 23 (by omega)]
  rw [copyInto_frontier _ _ _ _ (by simp <;> omega) (by omega)]
  simp only []
  rw [setAt_frontier _ _ _ _ (by simp <;> omega) (by omega)]
  simp only [Option.bind_eq_bind, Option.some_bind]
  rw [setAt_frontier _ _ _ _ (by simp <;> omega) (by omega)]
  simp only [Option.bind_eq_bind, Option.some_bind]
  rw [copyInto_frontier _ _ _ _ (by simp <;> omega) (by omega)]
  simp only []
  rw [copyInto_frontier _ _ _ _ (by simp <;> omega) (by simp)]
  simp only []
  rw [setAt_frontier _ _ _ _ (by simp <;> omega) (by simp <;> omega)]
  simp only [Option.bind_eq_bind, Option.some_bind]
  rw [copyInto_frontier _ _ _ _ (by simp <;> omega)
    (by simp [show mysqlNativePassword.length = 21 from rfl] <;> omega)]
  simp only []
  rw [show mysqlNativePassword.length = 21 from rfl]
  rw [show (56 + List.length U + List.length P + 4 - 1 - 1 - 1 - 1 - 4 - 4 - 1 - 23 -
      List.length U - 1 - 1 - List.length P - List.length ([] : Bytes) - 1 - 21) = 0 from by
    simp
    omega]
  simp only [List.replicate_zero, List.append_nil]
  rw [setAt_out _ _ _ (by simp [show mysqlNativePassword.length = 21 from rfl] <;> omega)]
  simp only [Option.bind_eq_bind, Option.none_bind]

/-- A concrete connection after a decoded greeting: database name "db",
username "rt", empty password, challenge bytes 1..20, collation 8. -/
def connA : Connection :=
  { NewConnection ⟨[100, 98], [114, 116], []⟩ with
    conn := some (), ScramblePart1 := [1, 2, 3, 4, 5, 6, 7, 8],
    ScramblePart2 := [9, 10, 11, 12, 13, 14, 15, 16, 17, 18, 19, 20],
    ServerDefaultCollation := 8 }

/-- The same connection with an empty database name. -/
def connE : Connection := { connA with param := ⟨[], [114, 116], []⟩ }

/-- C2: the CLIENT_CONNECT_WITH_DB bit is set and the null-terminated
database name appended whenever the name is non-empty; but with an
empty name the response is never emitted at all: the serialization
stores a lone terminator at the database position and then faults with
an out-of-range store, so there is no emitted packet (rather than a
packet without the bit and without name bytes). -/
theorem sendAuth_db_coupling :
    (∀ c : Connection, c.param.DBName ≠ [] →
       ∃ bs, sendAuth c = some bs ∧
         (bs.drop 4).take 4 = [9, 130, 3, 0] ∧
         leValue [9, 130, 3, 0] &&& CLIENT_CONNECT_WITH_DB =
           CLIENT_CONNECT_WITH_DB ∧
         ∃ pre, bs = pre ++ c.param.DBName ++ [0] ++ mysqlNativePassword ++ [0]) ∧
    (∀ c : Connection, c.param.DBName = [] → sendAuth c = none) := by
  constructor
  · intro c hd
    refine ⟨_, sendAuth_shape c hd, by simp, by decide, ?_⟩
    refine ⟨((57 + c.param.Username.length +
          (scramblePassword (c.ScramblePart1 ++ c.ScramblePart2)
            c.param.Password).length + c.param.DBName.length) % 256) ::
        (((57 + c.param.Username.length +
          (scramblePassword (c.ScramblePart1 ++ c.ScramblePart2)
            c.param.Password).length + c.param.DBName.length) >>> 8) % 256) ::
        (((57 + c.param.Username.length +
          (scramblePassword (c.ScramblePart1 ++ c.ScramblePart2)
            c.param.Password).length + c.param.DBName.length) >>> 16) % 256) ::
        1 :: 9 :: 130 :: 3 :: 0 :: 0 :: 0 :: 0 :: 1 ::
        c.ServerDefaultCollation ::
        (List.replicate 23 0 ++ c.param.Username ++
          [0, (scramblePassword (c.ScramblePart1 ++ c.ScramblePart2)
            c.param.Password).length % 256] ++
          scramblePassword (c.ScramblePart1 ++ c.ScramblePart2) c.param.Password),
        ?_⟩
    simp [List.append_assoc]
  · exact fun c hd => sendAuth_empty_db c hd

/-- Closed witness for the database coupling: with database name "db"
the bit is set and the name appended; with the empty name the build
faults. -/
theorem sendAuth_db_coupling_witness :
    (∃ bs, sendAuth connA = some bs ∧
       (bs.drop 4).take 4 = [9, 130, 3, 0] ∧
       leValue [9, 130, 3, 0] &&& CLIENT_CONNECT_WITH_DB =
         CLIENT_CONNECT_WITH_DB ∧
       ∃ pre, bs = pre ++ connA.param.DBName ++ [0] ++ mysqlNativePassword ++ [0]) ∧
    sendAuth connE = none :=
  ⟨sendAuth_db_coupling.1 connA (by decide), sendAuth_db_coupling.2 connE rfl⟩

/-- C3: with an empty database name the serialization of sendAuth runs
out of bounds: byteLen omits the database terminator that the code
stores unconditionally, so the final plugin-name terminator store
indexes one byte past the buffer and the build faults instead of
completing. -/
theorem sendAuth_empty_db_out_of_range : sendAuth connE = none := by decide

/-- C7 counterexample: the max-packet-size field emitted by sendAuth
(payload bytes 4-7, packet bytes 8-11) decodes to 16777216 = 2^24, not
2^24 - 1. -/
theorem sendAuth_max_packet_cex :
    (sendAuth connA).map (fun bs => leValue ((bs.drop 8).take 4)) = some 16777216 ∧
    (16777216 : Nat) ≠ 2 ^ 24 - 1 := by
  exact ⟨by decide, by decide⟩

/-- C7 amended: the max-packet-size field equals 2^24 (the value of the
MAX_PACKET_SIZE constant 1 <<< 24), one more than the claimed
2^24 - 1; shown for every response that serializes completely, which
means every connection with a non-empty database name. -/
theorem sendAuth_max_packet (c : Connection) (hd : c.param.DBName ≠ []) :
    ∃ bs, sendAuth c = some bs ∧ (bs.drop 8).take 4 = [0, 0, 0, 1] ∧
      leValue [0, 0, 0, 1] = MAX_PACKET_SIZE ∧ MAX_PACKET_SIZE = 2 ^ 24 := by
  refine ⟨_, sendAuth_shape c hd, by simp, by simp [leValue, MAX_PACKET_SIZE],
    by norm_num [MAX_PACKET_SIZE, Nat.shiftLeft_eq]⟩

/-- Closed witness for the amended max-packet claim at the concrete
connection. -/
theorem sendAuth_max_packet_witness :
    ∃ bs, sendAuth connA = some bs ∧ (bs.drop 8).take 4 = [0, 0, 0, 1] ∧
      leValue [0, 0, 0, 1] = MAX_PACKET_SIZE ∧ MAX_PACKET_SIZE = 2 ^ 24 :=
  sendAuth_max_packet connA (by decide)

/-- C6: the scramble is the documented composition
SHA1(challenge ++ SHA1(SHA1(password))) XOR SHA1(password) for every
non-empty password, is a pure deterministic function with a 20-byte
result, returns the empty credential for the empty password, and
consequently the credential-length byte written by sendAuth is then 0
with the database name following immediately (no credential bytes). -/
theorem scramblePassword_spec :
    (∀ ch pw : Bytes, pw ≠ [] →
       scramblePassword ch pw = bytesXor (sha1 (ch ++ sha1 (sha1 pw))) (sha1 pw)) ∧
    (∀ ch ch2 pw pw2 : Bytes, ch = ch2 → pw = pw2 →
       scramblePassword ch pw = scramblePassword ch2 pw2) ∧
    (∀ ch pw : Bytes, pw ≠ [] → (scramblePassword ch pw).length = 20) ∧
    (∀ ch : Bytes, scramblePassword ch [] = []) ∧
    (∀ c : Connection, c.param.Password = [] → c.param.DBName ≠ [] →
       ∃ pre, sendAuth c = some (pre ++ [0, 0] ++ c.param.DBName ++ [0] ++
           mysqlNativePassword ++ [0]) ∧
         pre.length = 36 + c.param.Username.length) := by
  refine ⟨fun ch pw hpw => by simp [scramblePassword, hpw],
    fun ch ch2 pw pw2 h1 h2 => by rw [h1, h2],
    fun ch pw hpw => scramblePassword_length ch pw hpw,
    fun ch => by simp [scramblePassword],
    fun c hpw hd => ?_⟩
  have hshape := sendAuth_shape c hd
  rw [hpw] at hshape
  simp [scramblePassword] at hshape
  refine ⟨((57 + c.param.Username.length + c.param.DBName.length) % 256) ::
      (((57 + c.param.Username.length + c.param.DBName.length) >>> 8) % 256) ::
      (((57 + c.param.Username.length + c.param.DBName.length) >>> 16) % 256) ::
      1 :: 9 :: 130 :: 3 :: 0 :: 0 :: 0 :: 0 :: 1 :: c.ServerDefaultCollation ::
      (List.replicate 23 0 ++ c.param.Username), ?_, by simp; omega⟩
  rw [hshape]
  simp [List.append_assoc]

/-- Closed witness for the scramble claims: the composition at the
challenge 1..20 with the password "password", determinism, the 20-byte
length, the empty-password case, and the zero credential-length byte in
the response of the concrete connection. -/
theorem scramblePassword_spec_witness :
    scramblePassword [1, 2, 3, 4, 5, 6, 7, 8, 9, 10, 11, 12, 13, 14, 15, 16, 17, 18, 19, 20]
        [112, 97, 115, 115, 119, 111, 114, 100] =
      bytesXor
        (sha1 ([1, 2, 3, 4, 5, 6, 7, 8, 9, 10, 11, 12, 13, 14, 15, 16, 17, 18, 19, 20] ++
          sha1 (sha1 [112, 97, 115, 115, 119, 111, 114, 100])))
        (sha1 [112, 97, 115, 115, 119, 111, 114, 100]) ∧
    (scramblePassword [1, 2, 3, 4, 5, 6, 7, 8, 9, 10, 11, 12, 13, 14, 15, 16, 17, 18, 19, 20]
        [112, 97, 115, 115, 119, 111, 114, 100]).length = 20 ∧
    scramblePassword [1, 2, 3, 4, 5, 6, 7, 8, 9, 10, 11, 12, 13, 14, 15, 16, 17, 18, 19, 20]
        [] = [] ∧
    (∃ pre, sendAuth connA = some (pre ++ [0, 0] ++ connA.param.DBName ++ [0] ++
        mysqlNativePassword ++ [0]) ∧
      pre.length = 36 + connA.param.Username.length) :=
  ⟨scramblePassword_spec.1 _ _ (by decide),
    scramblePassword_spec.2.2.1 _ _ (by decide),
    scramblePassword_spec.2.2.2.1 _,
    scramblePassword_spec.2.2.2.2 connA rfl (by decide)⟩

/-! ### The session state machine -/

/-- The four externally visible steps of Open, connection.go 120-169:
net.Dial, readInitPacket, sendAuth, readResult. -/
inductive OpenStep
  | dial
  | readInit
  | sendAuth
  | readResult
  deriving DecidableEq, Repr

/-- The control flow of Open, connection.go lines 120-169: each step
outcome is supplied by the environment (dial and the packet exchanges
are transport effects); Open runs the four steps in order, stops at the
first error and returns it, and returns success only after all four.
The second component lists the steps actually executed. -/
def OpenRun {E : Type} (dial readInit auth result : Except E Unit) :
    Except E Unit × List OpenStep :=
  match dial with
  | .error e => (.error e, [.dial])
  | .ok _ =>
    match readInit with
    | .error e => (.error e, [.dial, .readInit])
    | .ok _ =>
      match auth with
      | .error e => (.error e, [.dial, .readInit, .sendAuth])
      | .ok _ =>
        match result with
        | .error e => (.error e, [.dial, .readInit, .sendAuth, .readResult])
        | .ok _ => (.ok (), [.dial, .readInit, .sendAuth, .readResult])

/-- C9: whichever step of Open fails first, Open returns exactly that
error and executes none of the subsequent steps, and Open succeeds
precisely when all four steps succeed. -/
theorem OpenRun_error_propagation :
    (∀ (E : Type) (e : E) rI a r, OpenRun (.error e) rI a r = (.error e, [.dial])) ∧
    (∀ (E : Type) (e : E) a r,
      OpenRun (.ok ()) (.error e) a r = (.error e, [.dial, .readInit])) ∧
    (∀ (E : Type) (e : E) r,
      OpenRun (.ok ()) (.ok ()) (.error e) r =
        (.error e, [.dial, .readInit, .sendAuth])) ∧
    (∀ (E : Type) (e : E),
      OpenRun (.ok ()) (.ok ()) (.ok ()) (.error e) =
        (.error e, [.dial, .readInit, .sendAuth, .readResult])) ∧
    (∀ (E : Type) (d rI a r : Except E Unit),
      (OpenRun d rI a r).1 = .ok () ↔
        d = .ok () ∧ rI = .ok () ∧ a = .ok () ∧ r = .ok ()) := by
  refine ⟨fun E e rI a r => rfl, fun E e a r => rfl, fun E e r => rfl, fun E e => rfl,
    fun E d rI a r => ?_⟩
  cases d with
  | error e => simp [OpenRun]
  | ok u =>
    cases u
    cases rI with
    | error e => simp [OpenRun]
    | ok u =>
      cases u
      cases a with
      | error e => simp [OpenRun]
      | ok u =>
        cases u
        cases r with
        | error e => simp [OpenRun]
        | ok u => cases u; simp [OpenRun]

/-- Closed witness instantiating the propagation properties at a
concrete numeric error type. -/
theorem OpenRun_error_propagation_witness :
    OpenRun (Except.error 7) (.ok ()) (.ok ()) (.ok ()) = (.error 7, [.dial]) ∧
    OpenRun (Except.ok ()) (Except.error (8 : Nat)) (.ok ()) (.ok ()) =
      (.error 8, [.dial, .readInit]) ∧
    ((OpenRun (Except.ok ()) (Except.ok ()) (Except.ok ())
        (Except.ok () : Except Nat Unit)).1 = .ok () ↔
      (Except.ok () : Except Nat Unit) = .ok () ∧
        (Except.ok () : Except Nat Unit) = .ok () ∧
        (Except.ok () : Except Nat Unit) = .ok () ∧
        (Except.ok () : Except Nat Unit) = .ok ()) :=
  ⟨OpenRun_error_propagation.1 Nat 7 _ _ _,
    OpenRun_error_propagation.2.1 Nat 8 _ _,
    OpenRun_error_propagation.2.2.2.2 Nat _ _ _ _⟩

/-- Close, connection.go lines 171-173: returns c.conn.Close().  When
no transport was ever established (a fresh session, or Open failed at
the dial), conn is a nil Go interface and the method call faults with a
nil-pointer panic, modelled as none; with a live transport the call
releases it and returns. -/
def Close (c : Connection) : Option Unit :=
  match c.conn with
  | none => none
  | some _ => some ()

/-- C10 counterexample: invoking Close on a freshly created session
that was never opened does not return without fault: the nil transport
is dereferenced and the call panics. -/
theorem Close_fresh_faults :
    Close (NewConnection ⟨[], [], []⟩) = none ∧ (none ≠ some ()) := ⟨rfl, by decide⟩

/-- C10 amended: Close releases the transport and returns without fault
exactly when a transport has been established (conn non-nil, i.e. after
a successful dial); invoked on a session without a transport — freshly
created, or with Open failed at the dial — it dereferences a nil
transport and faults. -/
theorem Close_valid_iff_transport :
    (∀ (c : Connection) (t : Unit), c.conn = some t → Close c = some ()) ∧
    (∀ p : ConnectionParameter, Close (NewConnection p) = none) := by
  refine ⟨fun c t ht => ?_, fun p => rfl⟩
  simp [Close, ht]

/-- Closed witness: Close succeeds on the connection holding a
transport and faults on a fresh one. -/
theorem Close_valid_iff_transport_witness :
    Close connA = some () ∧ Close (NewConnection ⟨[], [], []⟩) = none :=
  ⟨Close_valid_iff_transport.1 connA () rfl,
    Close_valid_iff_transport.2 ⟨[], [], []⟩⟩

end Mysql
